import Mathlib

/-!
Verification of the Athens-Clarke county jail webscraper
(`src/webscraper/athens-clarke/scraper_athens_clarke.py`).

The development shallowly embeds the scraper's data flow:
pandas cells become `Option String` (with `none` playing the role of NaN),
the 25-column output dataframe becomes a `Row` structure, the per-inmate
detail subpages become an explicit outcome type, and the fatal
`assert`s become `Except.error` results while the caught, warn-and-skip
failures accumulate warning strings.

String primitives mirror the CPython semantics the scraper relies on:
`str.replace` is leftmost non-overlapping replacement of every occurrence,
`str.split(sep, 1)` splits at the first occurrence only, and
`str.lower` maps characters pointwise.
-/

namespace AthensClarke

/-- Boolean test that `pat` is an initial segment of `s` (used by the
embedding of `str.replace` and `str.split`). -/
def isPref : List Char → List Char → Bool
  | [], _ => true
  | _ :: _, [] => false
  | a :: as, b :: bs => a == b && isPref as bs

/-- Split at the first occurrence of `sep`, like Python `s.split(sep, 1)`
when it finds a separator: returns the part before the first occurrence of
`sep` and the part after it, or `none` when `sep` does not occur. -/
def splitFirst (sep : List Char) : List Char → Option (List Char × List Char)
  | [] => none
  | c :: cs =>
    if isPref sep (c :: cs) then some ([], (c :: cs).drop sep.length)
    else (splitFirst sep cs).map (fun p => (c :: p.1, p.2))

/-- Fuel-driven worker for `replaceL`; each step consumes at least one
character of the subject and one unit of fuel, so fuel equal to the
subject's length suffices. -/
def replaceLAux (pat rep : List Char) : Nat → List Char → List Char
  | 0, s => s
  | _ + 1, [] => []
  | fuel + 1, a :: as =>
    if pat ≠ [] ∧ isPref pat (a :: as) = true then
      rep ++ replaceLAux pat rep fuel (List.drop pat.length (a :: as))
    else
      a :: replaceLAux pat rep fuel as

/-- Replace every (leftmost, non-overlapping) occurrence of `pat` by `rep`,
like Python `s.replace(pat, rep)` for non-empty `pat`. -/
def replaceL (pat rep s : List Char) : List Char :=
  replaceLAux pat rep s.length s

/-- `str.replace` on `String`s. -/
def pyReplace (s pat rep : String) : String :=
  String.mk (replaceL pat.data rep.data s.data)

/-- `str.lower` (pointwise, as for the ASCII data this scraper handles). -/
def pyLower (s : String) : String :=
  String.mk (s.data.map Char.toLower)

/-- Python slicing `s[n:]`. -/
def strDrop (s : String) (n : Nat) : String :=
  String.mk (s.data.drop n)

/-- Python slicing `s[:n]`. -/
def strTake (s : String) (n : Nat) : String :=
  String.mk (s.data.take n)

/-- Python `s.startswith(pre)`. -/
def strStarts (s pre : String) : Bool :=
  isPref pre.data s.data

/-- Split on every occurrence of the single character `c`,
like Python `s.split(c)` (never returns an empty list). -/
def splitChar (c : Char) : List Char → List (List Char)
  | [] => [[]]
  | a :: as =>
    let r := splitChar c as
    if a == c then [] :: r
    else
      match r with
      | [] => [[a]]
      | h :: t => (a :: h) :: t

/-- Digits-to-number accumulator. -/
def digitsToNat (l : List Char) : Nat :=
  l.foldl (fun acc c => acc * 10 + (c.toNat - 48)) 0

/-- Parse a non-empty all-digit string, else `none`. -/
def parseNat (l : List Char) : Option Nat :=
  if l ≠ [] ∧ l.all Char.isDigit then some (digitsToNat l) else none

/-- Python `int(s)` for the shapes reachable here (optional minus sign,
then digits); `none` models the `ValueError` raised on anything else. -/
def parseInt (l : List Char) : Option Int :=
  match l with
  | '-' :: rest => (parseNat rest).map (fun n => -(n : Int))
  | _ => (parseNat l).map (fun n => (n : Int))

/-! ## Main-page field derivations (`scrape_main`) -/

/-- The `processing_numbers` computation of `scrape_main` (lines 135-139).
A `none` cell is pandas NaN: `'Case # ' + NaN` is NaN, which `fillna('')`
turns into the empty string, and `';Police case # ' + NaN` is NaN, which
`fillna(';')` turns into a bare `";"`; otherwise the embedded semicolons
of the two numbers are replaced by colons and the prefixed parts are
concatenated. -/
def processingNumbers (caseN policeCase : Option String) : String :=
  let part1 :=
    match caseN with
    | none => ""
    | some c => "Case # " ++ pyReplace c ";" ":"
  let part2 :=
    match policeCase with
    | none => ";"
    | some p => ";Police case # " ++ pyReplace p ";" ":"
  part1 ++ part2

/-- The row-wise effect of the two vectorized name splits of `scrape_main`
(lines 96-104): split at the first `", "` into last name and rest
(no `", "` leaves the rest NaN, hence `""` after `fillna`), then split the
rest at the first `" "` into first and middle name (no `" "` leaves the
middle name NaN, hence `""` after `fillna`). -/
def splitNameChars (name : List Char) : List Char × List Char × List Char :=
  match splitFirst [',', ' '] name with
  | none => (name, [], [])
  | some (last, rest) =>
    match splitFirst [' '] rest with
    | none => (last, rest, [])
    | some (fi, mid) => (last, fi, mid)

/-- `splitNameChars` packaged on `String`. -/
def splitNameS (name : String) : String × String × String :=
  match splitNameChars name.data with
  | (l, f, m) => (String.mk l, String.mk f, String.mk m)

/-- Race normalization of `scrape_main` (lines 113-116): lowercase, then
three `str.replace` passes. -/
def normRace (s : String) : String :=
  pyReplace (pyReplace (pyReplace (pyLower s)
    "black/african american" "black")
    "hispanic or latino" "hispanic")
    "middle eastern decent" "middle-eastern"

/-- Days per month, as `datetime` validates them. -/
def daysInMonth (y m : Nat) : Nat :=
  if m = 2 then
    if (y % 4 = 0 ∧ y % 100 ≠ 0) ∨ y % 400 = 0 then 29 else 28
  else if m == 4 || m == 6 || m == 9 || m == 11 then 30 else 31

/-- Left-pad to two digits, as `datetime.__str__` prints fields. -/
def pad2 (n : Nat) : String :=
  if n < 10 then "0" ++ toString n else toString n

/-- Left-pad a year to four digits. -/
def pad4 (n : Nat) : String :=
  if n < 10 then "000" ++ toString n
  else if n < 100 then "00" ++ toString n
  else if n < 1000 then "0" ++ toString n
  else toString n

/-- Modelled from the spec and CPython: the booking-date conversion
`str(datetime.strptime(dt, "%m/%d/%Y %I:%M:%S %p")) + ' EST'` of
`scrape_main` line 126 — a library call, embedded for this one fixed
format: month/day/year and hour:minute:second are validated in range
(12-hour clock, AM/PM case-insensitive), and the result is printed
zero-padded on a 24-hour clock with the hardcoded `EST` suffix.
`none` models the `ValueError` strptime raises on format drift. -/
def parseBooking (s : String) : Option String :=
  match splitChar ' ' s.data with
  | [d, t, ap] =>
    match splitChar '/' d, splitChar ':' t with
    | [ms, dys, ys], [hs, mins, secs] =>
      match parseNat ms, parseNat dys, parseNat ys,
            parseNat hs, parseNat mins, parseNat secs with
      | some m, some dy, some y, some h, some mi, some se =>
        let apl := String.mk (ap.map Char.toLower)
        if 1 ≤ m ∧ m ≤ 12 ∧ 1 ≤ dy ∧ dy ≤ daysInMonth y m ∧
           1 ≤ h ∧ h ≤ 12 ∧ mi ≤ 59 ∧ se ≤ 59 ∧
           (apl = "am" ∨ apl = "pm") ∧ ys.length ≤ 4 then
          let h24 :=
            if apl = "am" then (if h = 12 then 0 else h)
            else (if h = 12 then 12 else h + 12)
          some (pad4 y ++ "-" ++ pad2 m ++ "-" ++ pad2 dy ++ " " ++
                pad2 h24 ++ ":" ++ pad2 mi ++ ":" ++ pad2 se ++ " EST")
        else none
      | _, _, _, _, _, _ => none
    | _, _ => none
  | _ => none

/-! ## Detail-subpage per-charge fields (`scrape_sub`) -/

/-- The arresting-agency merge of `scrape_sub` (lines 209-215): when all
per-charge agency values are equal the value of charge 0 is used; when
several distinct agencies appear, *all* per-charge values (duplicates
included) are joined with `";"` via `str.cat(sep=';')` into row 0, and a
warning is recorded instead of failing. -/
def agencyResult (agencies : List String) : String × List String :=
  if agencies.dedup.length = 1 then (agencies.headD "", [])
  else (String.intercalate ";" agencies,
        ["Invalid arresting agency format, multiple arresting agencies. Inserting the agency that made the arrest for each charge"])

/-- The legacy-grade handling of `scrape_sub` (lines 221-223): when some
grade equals `"L"` exactly, every `'L'` character of every grade value is
deleted and a warning is recorded. -/
def gradeResult (grades : List String) : List String × List String :=
  if grades.any (fun g => g == "L") then
    (grades.map (fun g => pyReplace g "L" ""),
     ["Unknown grade of charge L. Replacing with empty string"])
  else (grades, [])

/-- The severity column of `scrape_sub` (lines 226-228): replace `M` by
`misdemeanor`, then `F` by `felony`, then join with `";"`. -/
def severityField (grades : List String) : String :=
  String.intercalate ";"
    ((grades.map (fun g => pyReplace g "M" "misdemeanor")).map
      (fun g => pyReplace g "F" "felony"))

/-- The charges column of `scrape_sub` (line 232): per-charge `';'`→`':'`
replacement, then a `";"` join. -/
def chargesField (descs : List String) : String :=
  String.intercalate ";" (descs.map (fun s => pyReplace s ";" ":"))

/-- The disposition column of `scrape_sub` (line 248): per-charge
`';'`→`':'` replacement, then a `";"` join. -/
def statusField (dispos : List String) : String :=
  String.intercalate ";" (dispos.map (fun s => pyReplace s ";" ":"))

/-- Three-way zip used to embed the elementwise `str.cat(..., sep=' ')`. -/
def zip3With (f : String → String → String → String) :
    List String → List String → List String → List String
  | a :: as, b :: bs, c :: cs => f a b c :: zip3With f as bs cs
  | _, _, _ => []

/-- The bond-amount column of `scrape_sub` (lines 237-245): `"$0.00"` and
`"$"` become empty, thousands separators are deleted from the amounts,
`';'`→`':'` is applied to the remarks and last-updated columns (not to the
amounts), the four columns are joined elementwise with `" "` (the literal
`" Bond last updated"` carries its own leading space), and the rows are
joined with `";"`. -/
def bondField (amounts remarks updated : List String) : String :=
  let a1 := amounts.map (fun a => if a == "$0.00" then "" else a)
  let a2 := a1.map (fun a => if a == "$" then "" else a)
  let a3 := a2.map (fun a => pyReplace a "," "")
  let r1 := remarks.map (fun s => pyReplace s ";" ":")
  let u1 := updated.map (fun s => pyReplace s ";" ":")
  String.intercalate ";"
    (zip3With (fun a r u => a ++ " " ++ r ++ " " ++ " Bond last updated" ++ " " ++ u) a3 r1 u1)

/-- Per-value view of the bond-amount normalization that happens before
the remarks are concatenated. -/
def normBond (a : String) : String :=
  pyReplace (if a = "$0.00" then "" else if a = "$" then "" else a) "," ""

/-! ## The output dataset -/

/-- One row of `self.df`, the 25-column output dataframe built by
`scrape_main` (lines 52-77). All cells are written as strings. -/
structure Row where
  county_name : String
  timestamp : String
  url : String
  inmate_id : String
  inmate_lastname : String
  inmate_firstname : String
  inmate_middlename : String
  inmate_sex : String
  inmate_race : String
  inmate_age : String
  inmate_dob : String
  inmate_address : String
  booking_timestamp : String
  release_timestamp : String
  processing_numbers : String
  agency : String
  facility : String
  charges : String
  severity : String
  bond_amount : String
  current_status : String
  court_dates : String
  days_jailed : String
  other : String
  notes : String
deriving DecidableEq

/-- One row of `df_main`, the 11-column roster table as `pd.read_html`
delivers it (all converters are `str`, so every cell is a string or NaN). -/
structure MainRow where
  mid : Option String
  name : Option String
  sex : Option String
  race : Option String
  bookingDate : Option String
  charge : Option String
  bondAmount : Option String
  caseNumber : Option String
  policeCase : Option String
  yob : Option String
  visitation : Option String
deriving DecidableEq

/-! ### The `scrape_main` checks, in source order -/

/-- `assert all(pd.notnull(df_main['MID#']))` (line 90). -/
def midNotNull (rows : List MainRow) : Bool :=
  rows.all (fun r => r.mid.isSome)

/-- `assert df_main['MID#'].unique().size == df_main.shape[0]` (line 91). -/
def midUnique (rows : List MainRow) : Bool :=
  (rows.map (fun r => r.mid.getD "")).dedup.length == rows.length

/-- `assert all(pd.notnull(df_main['NAME']))` (line 95). -/
def nameNotNull (rows : List MainRow) : Bool :=
  rows.all (fun r => r.name.isSome)

/-- The shape of the first vectorized split (line 96-97): the expanded
frame has two columns iff some name contains `", "`. -/
def nameSplit1OK (rows : List MainRow) : Bool :=
  rows.any (fun r => (splitFirst [',', ' '] (r.name.getD "").data).isSome)

/-- The shape of the second vectorized split (lines 100-101): after
splitting off the last name, the expanded frame has two columns iff some
remaining part contains `" "` (rows without a comma are NaN here and
contribute nothing). -/
def nameSplit2OK (rows : List MainRow) : Bool :=
  rows.any (fun r =>
    match splitFirst [',', ' '] (r.name.getD "").data with
    | some (_, rest) => (splitFirst [' '] rest).isSome
    | none => false)

/-- `assert all(pd.notnull(df_main['SEX']))` (line 107). -/
def sexNotNull (rows : List MainRow) : Bool :=
  rows.all (fun r => r.sex.isSome)

/-- `np.isin(df_main['SEX'].unique(), ['MALE','FEMALE']).all()` (line 108). -/
def sexOK (rows : List MainRow) : Bool :=
  rows.all (fun r => r.sex.getD "" == "MALE" || r.sex.getD "" == "FEMALE")

/-- `assert all(pd.notnull(df_main['RACE']))` (line 112). -/
def raceNotNull (rows : List MainRow) : Bool :=
  rows.all (fun r => r.race.isSome)

/-- The race enumeration check of line 117, after normalization. -/
def raceOK (rows : List MainRow) : Bool :=
  rows.all (fun r =>
    let s := normRace (r.race.getD "")
    s == "asian" || s == "white" || s == "black" || s == "hispanic" || s == "middle-eastern")

/-- `assert all(pd.notnull(df_main['BOOKING DATE']))` (line 125). -/
def bookingNotNull (rows : List MainRow) : Bool :=
  rows.all (fun r => r.bookingDate.isSome)

/-- `strptime` succeeding on every booking date (line 126-127); a failure
is an uncaught `ValueError`, hence fatal. -/
def bookingOK (rows : List MainRow) : Bool :=
  rows.all (fun r => (parseBooking (r.bookingDate.getD "")).isSome)

/-- `assert all(pd.notnull(df_main['YEAR OF BIRTH']))` (line 142). -/
def yobNotNull (rows : List MainRow) : Bool :=
  rows.all (fun r => r.yob.isSome)

/-- `assert all(df_main['YEAR OF BIRTH'].str.len()==4)` (line 143). -/
def yobLen4 (rows : List MainRow) : Bool :=
  rows.all (fun r => (r.yob.getD "").data.length == 4)

/-- `int(yyyy)` succeeding on every year of birth (line 149); a failure is
an uncaught `ValueError`, hence fatal. -/
def yobInt (rows : List MainRow) : Bool :=
  rows.all (fun r => (parseInt (r.yob.getD "").data).isSome)

/-- One output row as `scrape_main` fills it: `u` is the entry url, `ts`
the scrape timestamp, `y` the current calendar year. Detail-only fields
stay empty; they are populated (and `notes` overwritten) by `scrape_sub`. -/
def buildRow (u ts : String) (y : Int) (r : MainRow) : Row :=
  let n := splitNameS (r.name.getD "")
  { county_name := "athens-clarke"
    timestamp := ts
    url := u
    inmate_id := r.mid.getD ""
    inmate_lastname := n.1
    inmate_firstname := n.2.1
    inmate_middlename := n.2.2
    inmate_sex := strTake (pyLower (r.sex.getD "")) 1
    inmate_race := normRace (r.race.getD "")
    inmate_age := toString (y - (parseInt (r.yob.getD "").data).getD 0)
    inmate_dob := r.yob.getD ""
    inmate_address := ""
    booking_timestamp := (parseBooking (r.bookingDate.getD "")).getD ""
    release_timestamp := ""
    processing_numbers := processingNumbers r.caseNumber r.policeCase
    agency := ""
    facility := "Clarke County Jail"
    charges := ""
    severity := ""
    bond_amount := ""
    current_status := ""
    court_dates := ""
    days_jailed := ""
    other := ""
    notes := "" }

/-- The validation-and-build chain of `scrape_main` over the roster rows
that remain after the artifact row is dropped: every uncaught
`assert`/`ValueError` becomes an `Except.error`, in source order, and on
success the dataset holds one `Row` per input row, in order. -/
def scrapeMainChecked (u ts : String) (y : Int) (rows : List MainRow) :
    Except String (List Row) :=
  if !midNotNull rows then .error "null MID#" else
  if !midUnique rows then .error "Non-unique inmate IDs" else
  if !nameNotNull rows then .error "null NAME" else
  if !nameSplit1OK rows then .error "Invalid name format" else
  if !nameSplit2OK rows then .error "Invalid name format" else
  if !sexNotNull rows then .error "null SEX" else
  if !sexOK rows then .error "Invalid sex format" else
  if !raceNotNull rows then .error "null RACE" else
  if !raceOK rows then .error "One or more of these races not converted to standard format" else
  if !bookingNotNull rows then .error "null BOOKING DATE" else
  if !bookingOK rows then .error "time data does not match format" else
  if !yobNotNull rows then .error "null YEAR OF BIRTH" else
  if !yobLen4 rows then .error "Invalid year of birth format" else
  if !yobInt rows then .error "invalid literal for int" else
  .ok (rows.map (buildRow u ts y))

/-- `scrape_main` (lines 27-150) over the parsed roster table `t`,
including the all-NaN artifact row that `iloc[1:]` drops (line 47). -/
def scrapeMain (u ts : String) (y : Int) (t : List MainRow) :
    Except String (List Row) :=
  scrapeMainChecked u ts y (t.drop 1)

/-! ## Detail subpages (`scrape_sub`) -/

/-- The identity table `df_sub1` (matched by the text `Name:`), as a grid
of string-or-NaN cells; a valid one is 5×4. -/
abbrev Table1 := List (List (Option String))

/-- One row of the charges table `df_sub2` (matched by the text
`ARRESTING AGENCY`), cells string-or-NaN. -/
structure ChargeRow where
  agency : Option String
  grade : Option String
  desc : Option String
  bond : Option String
  remarks : Option String
  updated : Option String
  dispo : Option String
deriving DecidableEq

/-- The charges table `df_sub2` with its header row. -/
structure Table2 where
  cols : List String
  rows : List ChargeRow
deriving DecidableEq

/-- What handling one subpage hyperlink can yield: `get_page` returned an
error after its retries, or a fetched page parsed into the list of tables
matching `Name:` and the list matching `ARRESTING AGENCY` (an empty first
list is the caught `ValueError` of `pd.read_html`). -/
inductive SubOutcome where
  | fetchFail (url errormsg : String)
  | page (url : String) (nameTables : List Table1) (agencyTables : List Table2)
deriving DecidableEq

/-- Cell access `t.iloc[i, j]` on the identity table (out-of-range reads
NaN; the shape assertion runs first). -/
def cellD (t : Table1) (i j : Nat) : Option String :=
  (t.getD i []).getD j none

/-- `assert df_sub1.shape==(5,4)` (line 184). -/
def shape54 (t : Table1) : Bool :=
  t.length == 5 && t.all (fun r => r.length == 4)

/-- The blank-address fix of line 185: a NaN at cell (1,1) becomes the
empty string before the format assertion runs. -/
def fixAddr (t : Table1) : Table1 :=
  match t with
  | r0 :: r1 :: rest =>
    r0 :: (if r1.getD 1 none = none then r1.set 1 (some "") else r1) :: rest
  | _ => t

/-- The fixed-label format assertion of lines 186-190. -/
def labelsOK (t : Table1) : Bool :=
  cellD t 0 0 == some "Name:" && cellD t 1 0 == some "Address:" &&
  cellD t 2 0 == some "Sex:" && cellD t 3 0 == some "Year of Birth:" &&
  cellD t 4 0 == some "Booking Date/Time:" &&
  (List.range 5).all (fun i => (cellD t i 1).isSome) &&
  (cellD t 0 2).isSome && strStarts ((cellD t 0 2).getD "") "MID#: " &&
  cellD t 1 2 == none && cellD t 2 2 == some "Race:" &&
  cellD t 3 2 == some "Height/Weight:" &&
  cellD t 4 2 == some "Released Date/Time:" &&
  cellD t 0 3 == none && cellD t 1 3 == none &&
  (cellD t 2 3).isSome && (cellD t 3 3).isSome && (cellD t 4 3).isSome

/-- `inmate_id = df_sub1.iloc[0,2][6:]` (line 198). -/
def extractId (t : Table1) : String :=
  strDrop ((cellD t 0 2).getD "") 6

/-- The expected header of the charges table (line 194). -/
def cols2 : List String :=
  ["ARRESTING AGENCY", "GRADE OF CHARGE", "CHARGE DESCRIPTION",
   "BOND AMOUNT", "BOND REMARKS", "BOND LAST UPDATED", "DISPOSITION"]

/-- The in-place update a successful subpage applies to its inmate's row
(lines 203-251): url, address, the five per-charge fields, and the `notes`
sentinel erased. -/
def applySub (u addr ag sev chg bnd st : String) (r : Row) : Row :=
  { r with url := u, inmate_address := addr, agency := ag, severity := sev,
           charges := chg, bond_amount := bnd, current_status := st, notes := "" }

/-- The grade values, after `fillna('')` and the conditional `L` deletion,
all lie in {`M`, `F`, `""`} — the fatal assertion of line 225. -/
def gradesOK (rows : List ChargeRow) : Bool :=
  (gradeResult (rows.map (fun r => r.grade.getD ""))).1.all
    (fun g => g == "M" || g == "F" || g == "")

/-- The merge a successful subpage performs on the dataset (lines
198-251): every row whose `inmate_id` matches the id extracted from the
identity table receives the subpage url, the address from cell (1,1), the
five per-charge fields, and an erased `notes`. -/
def subUpdate (url : String) (t1 : Table1) (t2 : Table2) (ds : List Row) : List Row :=
  ds.map (fun r =>
    if r.inmate_id == extractId (fixAddr t1) then
      applySub url ((cellD (fixAddr t1) 1 1).getD "")
        (agencyResult (t2.rows.map (fun r => r.agency.getD ""))).1
        (severityField (gradeResult (t2.rows.map (fun r => r.grade.getD ""))).1)
        (chargesField (t2.rows.map (fun r => r.desc.getD "")))
        (bondField (t2.rows.map (fun r => r.bond.getD ""))
                   (t2.rows.map (fun r => r.remarks.getD ""))
                   (t2.rows.map (fun r => r.updated.getD "")))
        (statusField (t2.rows.map (fun r => r.dispo.getD ""))) r
    else r)

/-- The warnings a successful subpage can emit: one for multiple distinct
arresting agencies (line 213), one for a legacy `L` grade (line 223). -/
def subWarnings (t2 : Table2) : List String :=
  (agencyResult (t2.rows.map (fun r => r.agency.getD ""))).2 ++
  (gradeResult (t2.rows.map (fun r => r.grade.getD ""))).2

/-- Handling of a single subpage (`scrape_sub` loop body, lines 163-253).
`Except.error` is an uncaught assertion or `ValueError` that aborts the
whole run; `.ok` carries the updated dataset and the warnings emitted.
Only a `get_page` failure and the `ValueError` of the first `read_html`
(no table matching `Name:`) are caught and skipped. -/
def processOutcome (ds : List Row) : SubOutcome → Except String (List Row × List String)
  | .fetchFail url e =>
    .ok (ds, ["Could not get URL " ++ url ++ ". Error message: " ++ e ++ ". Continuing to next page"])
  | .page url nts ats =>
    match nts with
    | [] => .ok (ds, ["No tables found matching pattern, continuing to next page."])
    | [t1] =>
      if !shape54 t1 then .error "Wrong table dimensions" else
      if !labelsOK (fixAddr t1) then .error "Table format has changed" else
      match ats with
      | [] => .error "No tables found matching pattern"
      | [t2] =>
        if !(t2.cols == cols2) then .error "Column names have changed" else
        if t2.rows.isEmpty then .error "Table has zero rows" else
        if !(ds.any (fun r => r.inmate_id == extractId (fixAddr t1))) then
          .error "Inmate id not found in main page" else
        if !(t2.rows.all (fun r => r.agency.isSome)) then
          .error "Invalid arresting agency format" else
        if !gradesOK t2.rows then
          .error "Invalid misdemeanor/felony format." else
        .ok (subUpdate url t1 t2 ds, subWarnings t2)
      | _ :: _ :: _ => .error "Should be only 1 table on page with matching text."
    | _ :: _ :: _ => .error "Should be only 1 table on page with matching text."

/-- The subpage loop of `scrape_sub`: outcomes in document order, warnings
accumulated, any uncaught failure aborting the run. -/
def scrapeSubLoop (ds : List Row) : List SubOutcome → Except String (List Row × List String)
  | [] => .ok (ds, [])
  | o :: os =>
    match processOutcome ds o with
    | .error e => .error e
    | .ok (ds1, ws) =>
      match scrapeSubLoop ds1 os with
      | .error e => .error e
      | .ok (ds2, ws2) => .ok (ds2, ws ++ ws2)

/-- The sentinel every row receives before any subpage is processed
(line 160), erased only by a successful merge. -/
def sentinelNote : String :=
  "Failed to load inmate detail page. Leaving some fields blank"

/-- `notes` pre-set to the failure sentinel. -/
def setSentinel (r : Row) : Row :=
  { r with notes := sentinelNote }

/-- `scrape_sub` (lines 152-253): first the href-count assertion of line
159, then the sentinel assignment of line 160, then the subpage loop. -/
def scrapeSub (ds : List Row) (os : List SubOutcome) :
    Except String (List Row × List String) :=
  if os.length ≠ ds.length then .error "Number of hrefs != number of table entries"
  else scrapeSubLoop (ds.map setSentinel) os

/-! ## `get_page` -/

/-- An HTTP response as `get_page` inspects it. -/
structure Response where
  status : Nat
  text : String
deriving DecidableEq

/-- `requests.codes.ok`. -/
def codesOk : Nat := 200

/-- The body of one attempt (lines 267-271): an exception from
`requests.get` is an error, a non-success status is raised into an error
with the message of line 270, a success returns the page text. -/
def tryGet (r : Except String Response) : Except String String :=
  match r with
  | .error e => .error e
  | .ok resp =>
    if resp.status ≠ codesOk then
      .error ("HTTP response code was " ++ toString resp.status ++
              ", should have been " ++ toString codesOk)
    else .ok resp.text

/-- The retry loop of `get_page` (lines 265-275) with `n` attempts left:
return the first success, or on the final attempt the last error. -/
def getPageGo (attempt : Nat → Except String String) (idx : Nat) :
    Nat → Option String × Option String
  | 0 => (none, none)
  | 1 =>
    match attempt idx with
    | .ok t => (some t, none)
    | .error e => (none, some e)
  | n + 2 =>
    match attempt idx with
    | .ok t => (some t, none)
    | .error _ => getPageGo attempt (idx + 1) (n + 1)

/-- `get_page(url)`: `retries + 1` attempts, each issuing
`requests.get(url, timeout, headers)` with the same url and headers
(modelled by the oracle `doGet` applied to the attempt number). -/
def getPage (doGet : String → String → Nat → Except String Response)
    (url headers : String) (retries : Nat) : Option String × Option String :=
  getPageGo (fun k => tryGet (doGet url headers k)) 0 (retries + 1)

/-! ## Classifying subpage outcomes (for the partial-failure policy) -/

/-- A parsed subpage that passes every fatal check of `scrape_sub` against
a dataset whose inmate ids are `ids`. -/
def validSub (ids : List String) (t1 : Table1) (t2 : Table2) : Bool :=
  shape54 t1 && labelsOK (fixAddr t1) && (t2.cols == cols2) &&
  !t2.rows.isEmpty && ids.any (fun s => s == extractId (fixAddr t1)) &&
  t2.rows.all (fun r => r.agency.isSome) && gradesOK t2.rows

/-- Outcomes the warn-and-skip policy survives: a fetch failure, a page
with no table matching `Name:` (the caught `ValueError`), or a fully valid
subpage whose inmate id occurs in the dataset. -/
def goodOutcome (ids : List String) : SubOutcome → Bool
  | .fetchFail _ _ => true
  | .page _ [] _ => true
  | .page _ [t1] [t2] => validSub ids t1 t2
  | .page _ _ _ => false

/-- The inmate id a subpage outcome would merge into, when it has one. -/
def touchesId : SubOutcome → Option String
  | .page _ [t1] _ => some (extractId (fixAddr t1))
  | _ => none

/-! ## Concrete data used by the witnesses -/

/-- Oracle for the C6 witness: every attempt raises. -/
def doGetAlwaysFail : String → String → Nat → Except String Response :=
  fun _ _ k => .error ("connection refused at attempt " ++ toString k)

/-- Oracle for the C6 witness: attempt 0 raises, attempt 1 succeeds. -/
def doGetSecondOk : String → String → Nat → Except String Response :=
  fun _ _ k => if k = 0 then .error "boom" else .ok ⟨200, "hello"⟩

/-- A dataset row carrying only an inmate id, as the witnesses need it. -/
def blankRow (id : String) : Row :=
  { county_name := "athens-clarke", timestamp := "ts", url := "u",
    inmate_id := id, inmate_lastname := "", inmate_firstname := "",
    inmate_middlename := "", inmate_sex := "", inmate_race := "",
    inmate_age := "", inmate_dob := "", inmate_address := "",
    booking_timestamp := "", release_timestamp := "", processing_numbers := "",
    agency := "", facility := "Clarke County Jail", charges := "",
    severity := "", bond_amount := "", current_status := "",
    court_dates := "", days_jailed := "", other := "", notes := "" }

/-- A well-formed identity table for inmate id `"2"`. -/
def t1okW : Table1 :=
  [[some "Name:", some "ABOYADE, OLUFEMI", some "MID#: 2", none],
   [some "Address:", some "123 St", none, none],
   [some "Sex:", some "MALE", some "Race:", some "BLACK"],
   [some "Year of Birth:", some "1990", some "Height/Weight:", some "510/150"],
   [some "Booking Date/Time:", some "01/02/2018", some "Released Date/Time:", some ""]]

/-- A well-formed one-charge charges table. -/
def t2okW : Table2 :=
  { cols := cols2,
    rows := [{ agency := some "ACCPD", grade := some "F", desc := some "THEFT",
               bond := some "$1,000.00", remarks := some "", updated := some "01/01/2018",
               dispo := some "" }] }

/-- An identity table of the wrong shape (fails the 5×4 assertion). -/
def t1badW : Table1 := [[some "Name:"]]

/-- A roster row for the main-page witnesses. -/
def mkMainRow (mid name sex race booking yob : Option String) : MainRow :=
  { mid := mid, name := name, sex := sex, race := race, bookingDate := booking,
    charge := none, bondAmount := none, caseNumber := none, policeCase := none,
    yob := yob, visitation := none }

/-- The all-NaN artifact row that `iloc[1:]` drops. -/
def artifactRow : MainRow :=
  mkMainRow none none none none none none

/-- A valid two-inmate roster table (C8 witness). -/
def tGoodW : List MainRow :=
  [artifactRow,
   mkMainRow (some "1001") (some "SMITH, JOHN ROBERT") (some "MALE") (some "WHITE")
     (some "01/02/2017 03:04:05 PM") (some "1990"),
   mkMainRow (some "1002") (some "DOE, JANE ANN") (some "FEMALE") (some "BLACK")
     (some "12/31/2017 11:59:59 PM") (some "1985")]

/-- A roster table with duplicate inmate ids (C8 witness). -/
def tBadW : List MainRow :=
  [artifactRow,
   mkMainRow (some "1001") (some "SMITH, JOHN ROBERT") (some "MALE") (some "WHITE")
     (some "01/02/2017 03:04:05 PM") (some "1990"),
   mkMainRow (some "1001") (some "DOE, JANE ANN") (some "FEMALE") (some "BLACK")
     (some "12/31/2017 11:59:59 PM") (some "1985")]

/-- The dataset `scrapeMain` produces on `tGoodW` (C8 witness). -/
def dsGoodW : List Row :=
  (scrapeMain "u" "ts" 2018 tGoodW).toOption.getD []

/-- A roster whose every name is valid but has no middle name (C9 witness). -/
def tNoMiddleW : List MainRow :=
  [artifactRow,
   mkMainRow (some "1001") (some "SMITH, JOHN") (some "MALE") (some "WHITE")
     (some "01/02/2017 03:04:05 PM") (some "1990"),
   mkMainRow (some "1002") (some "DOE, JANE") (some "FEMALE") (some "BLACK")
     (some "12/31/2017 11:59:59 PM") (some "1985")]

/-! ## Helper lemmas -/

lemma isPref_append (sep r : List Char) : isPref sep (sep ++ r) = true := by
  induction sep with
  | nil => rfl
  | cons a as ih => simp [isPref, ih]

lemma splitFirst_at_sep (c : Char) (tl : List Char) :
    ∀ l r : List Char, c ∉ l →
      splitFirst (c :: tl) (l ++ (c :: tl) ++ r) = some (l, r) := by
  intro l
  induction l with
  | nil =>
    intro r _
    show splitFirst (c :: tl) (c :: (tl ++ r)) = some ([], r)
    unfold splitFirst
    rw [if_pos]
    · have hd : (c :: (tl ++ r)).drop (c :: tl).length = r := by
        have hdl := List.drop_left (c :: tl) r
        simp only [List.cons_append] at hdl
        exact hdl
      rw [hd]
    · have := isPref_append (c :: tl) r
      simp only [List.cons_append] at this
      exact this
  | cons a as ih =>
    intro r hl
    have hca : c ≠ a := by
      intro h
      exact hl (h ▸ List.mem_cons_self a as)
    have has : c ∉ as := fun h => hl (List.mem_cons_of_mem a h)
    show splitFirst (c :: tl) (a :: (as ++ (c :: tl) ++ r)) = some (a :: as, r)
    unfold splitFirst
    rw [if_neg]
    · rw [ih r has]
      rfl
    · simp [isPref, beq_eq_false_iff_ne.2 hca]

lemma splitFirst_not_mem (c : Char) (tl : List Char) :
    ∀ s : List Char, c ∉ s → splitFirst (c :: tl) s = none := by
  intro s
  induction s with
  | nil => intro _; rfl
  | cons a as ih =>
    intro hs
    have hca : c ≠ a := by
      intro h
      exact hs (h ▸ List.mem_cons_self a as)
    have has : c ∉ as := fun h => hs (List.mem_cons_of_mem a h)
    unfold splitFirst
    rw [if_neg]
    · rw [ih has]
      rfl
    · simp [isPref, beq_eq_false_iff_ne.2 hca]

lemma nodup_of_dedup_length {l : List String} (h : l.dedup.length = l.length) :
    l.Nodup := by
  have h2 := (List.dedup_sublist l).eq_of_length h
  rw [← h2]
  exact List.nodup_dedup l

/-! ## Claims -/

/-- C2 counterexample. The claim states that a missing police case number
still yields the literal `"Police case # "` suffix, with
`"Case # 2017:00004550;Police case # "` as the expected value; the code
(whose `fillna(';')` replaces the whole NaN-propagated slot by a bare
semicolon) produces `"Case # 2017:00004550;"` instead. -/
theorem processing_numbers_missing_police_cex :
    processingNumbers (some "2017;00004550") none = "Case # 2017:00004550;" ∧
    processingNumbers (some "2017;00004550") none ≠ "Case # 2017:00004550;Police case # " := by
  exact ⟨rfl, by decide⟩

/-- C2 (amended): `processing_numbers` is
`"Case # " + case + ";Police case # " + police` with semicolons in the
numbers replaced by colons, but a missing number erases its *entire* slot,
literal prefix included: a missing case number leaves the first part empty,
and a missing police case number leaves only the separating `";"`. -/
theorem processing_numbers_format (c p : String) :
    processingNumbers (some c) (some p) =
      ("Case # " ++ pyReplace c ";" ":") ++ (";Police case # " ++ pyReplace p ";" ":") ∧
    processingNumbers none (some p) = ";Police case # " ++ pyReplace p ";" ":" ∧
    processingNumbers (some c) none = ("Case # " ++ pyReplace c ";" ":") ++ ";" ∧
    processingNumbers none none = ";" := by
  refine ⟨rfl, ?_, rfl, rfl⟩
  show ("" : String) ++ (";Police case # " ++ pyReplace p ";" ":") = _
  simp

/-- C3: a main-page name of the form `"last, first middle..."` splits into
the text before the first `", "`, the first token after it, and the
remaining tokens; with no middle tokens the middle name is empty. -/
theorem name_split_correct (l f m : String)
    (hl : ',' ∉ l.data) (hf : ' ' ∉ f.data) :
    splitNameS (l ++ ", " ++ f ++ " " ++ m) = (l, f, m) ∧
    splitNameS (l ++ ", " ++ f) = (l, f, "") := by
  have hdata1 : (l ++ ", " ++ f ++ " " ++ m).data =
      l.data ++ (',' :: ' ' :: []) ++ (f.data ++ (' ' :: []) ++ m.data) := by
    simp [String.data_append]
  have hdata2 : (l ++ ", " ++ f).data = l.data ++ (',' :: ' ' :: []) ++ f.data := by
    simp [String.data_append]
  constructor
  · unfold splitNameS splitNameChars
    simp only [hdata1, splitFirst_at_sep ',' [' '] l.data _ hl,
        splitFirst_at_sep ' ' [] f.data m.data hf]
  · unfold splitNameS splitNameChars
    simp only [hdata2, splitFirst_at_sep ',' [' '] l.data f.data hl,
        splitFirst_not_mem ' ' [] f.data hf]

/-- C3 witness: the documented examples, via the theorem. -/
theorem name_split_correct_witness :
    splitNameS ("SMITH" ++ ", " ++ "JOHN" ++ " " ++ "ROBERT") = ("SMITH", "JOHN", "ROBERT") ∧
    splitNameS ("SMITH" ++ ", " ++ "JOHN") = ("SMITH", "JOHN", "") :=
  ⟨(name_split_correct "SMITH" "JOHN" "ROBERT" (by decide) (by decide)).1,
   (name_split_correct "SMITH" "JOHN" "ROBERT" (by decide) (by decide)).2⟩

/-- C4 counterexample. The claim states that with multiple distinct
arresting agencies the field is the `";"`-concatenation of the *distinct*
agency names; on charges with agencies `["A", "B", "A"]` the code joins
all three per-charge values, producing `"A;B;A"` — three `";"`-separated
components although only two distinct agencies occur. -/
theorem agency_distinct_cex :
    (agencyResult ["A", "B", "A"]).1 = "A;B;A" ∧
    (splitChar ';' (agencyResult ["A", "B", "A"]).1.data).length = 3 ∧
    (["A", "B", "A"] : List String).dedup.length = 2 := by
  decide

/-- C4 (amended): when the charges table carries more than one distinct
arresting agency, the merge does not fail: the agency field becomes the
`";"`-join of *all* per-charge agency values, in charge order and with
duplicates kept, and a warning is recorded instead of an error. -/
theorem agency_multiple_joined (agencies : List String)
    (h : 1 < agencies.dedup.length) :
    agencyResult agencies =
      (String.intercalate ";" agencies,
       ["Invalid arresting agency format, multiple arresting agencies. Inserting the agency that made the arrest for each charge"]) := by
  unfold agencyResult
  rw [if_neg]
  omega

/-- C4 witness: the amended claim at the counterexample input. -/
theorem agency_multiple_joined_witness :
    agencyResult ["A", "B", "A"] =
      (String.intercalate ";" ["A", "B", "A"],
       ["Invalid arresting agency format, multiple arresting agencies. Inserting the agency that made the arrest for each charge"]) :=
  agency_multiple_joined ["A", "B", "A"] (by decide)

/-- C5 counterexample. The claim states that every literal `';'` inside a
field value is replaced by `':'` in all five per-charge fields before the
`";"`-join; for a single charge whose arresting agency is `"POLICE;DEPT"`
the code keeps the semicolon in the agency field, while the claim demands
`"POLICE:DEPT"`. -/
theorem agency_semicolon_cex :
    (agencyResult ["POLICE;DEPT"]).1 = "POLICE;DEPT" ∧
    String.intercalate ";" (["POLICE;DEPT"].map (fun s => pyReplace s ";" ":")) = "POLICE:DEPT" ∧
    (agencyResult ["POLICE;DEPT"]).1 ≠ "POLICE:DEPT" := by
  decide

/-- C5 (amended): each of the five per-charge fields is the `";"`-join of
its per-charge values, but the `';'`→`':'` escaping is applied only to the
charge description, the disposition, and the remarks / last-updated parts
of the bond field; the bond amount proper and the agency values are joined
unescaped, and severity values are drawn from
{`misdemeanor`, `felony`, `""`} so never contain `';'`. -/
theorem per_charge_fields_joined (grades descs amounts remarks updated dispos : List String)
    (hg : ∀ g ∈ grades, g = "M" ∨ g = "F" ∨ g = "") :
    severityField grades =
      String.intercalate ";" (grades.map
        (fun g => if g = "M" then "misdemeanor" else if g = "F" then "felony" else "")) ∧
    chargesField descs =
      String.intercalate ";" (descs.map (fun s => pyReplace s ";" ":")) ∧
    statusField dispos =
      String.intercalate ";" (dispos.map (fun s => pyReplace s ";" ":")) ∧
    bondField amounts remarks updated =
      String.intercalate ";" (zip3With
        (fun a r u => a ++ " " ++ r ++ " " ++ " Bond last updated" ++ " " ++ u)
        (amounts.map normBond)
        (remarks.map (fun s => pyReplace s ";" ":"))
        (updated.map (fun s => pyReplace s ";" ":"))) := by
  refine ⟨?_, rfl, rfl, ?_⟩
  · unfold severityField
    rw [List.map_map]
    congr 1
    apply List.map_congr_left
    intro g hgm
    rcases hg g hgm with h | h | h <;> subst h <;> decide
  · unfold bondField
    dsimp only
    rw [List.map_map, List.map_map]
    have hA : List.map
        (((fun a => pyReplace a "," "") ∘ fun a => if (a == "$") = true then "" else a) ∘
          fun a => if (a == "$0.00") = true then "" else a) amounts =
        List.map normBond amounts := by
      apply List.map_congr_left
      intro a _
      simp only [Function.comp_apply]
      unfold normBond
      by_cases h0 : a = "$0.00"
      · subst h0; decide
      · by_cases h1 : a = "$"
        · subst h1; decide
        · simp [h0, h1]
    rw [hA]

/-- C5 witness: the amended claim at a concrete charges table. -/
theorem per_charge_fields_joined_witness :
    severityField ["M", "F", ""] =
      String.intercalate ";" ((["M", "F", ""] : List String).map
        (fun g => if g = "M" then "misdemeanor" else if g = "F" then "felony" else "")) ∧
    chargesField ["A;B"] =
      String.intercalate ";" ((["A;B"] : List String).map (fun s => pyReplace s ";" ":")) ∧
    statusField ["d;e"] =
      String.intercalate ";" ((["d;e"] : List String).map (fun s => pyReplace s ";" ":")) ∧
    bondField ["$1,000.00"] ["r;s"] ["u"] =
      String.intercalate ";" (zip3With
        (fun a r u => a ++ " " ++ r ++ " " ++ " Bond last updated" ++ " " ++ u)
        ((["$1,000.00"] : List String).map normBond)
        ((["r;s"] : List String).map (fun s => pyReplace s ";" ":"))
        ((["u"] : List String).map (fun s => pyReplace s ";" ":"))) :=
  per_charge_fields_joined ["M", "F", ""] ["A;B"] ["$1,000.00"] ["r;s"] ["u"] ["d;e"]
    (by decide)

/-- C7: bond-amount normalization maps the exact values `"$0.00"` and
`"$"` to the empty string before the remarks are concatenated, and every
other value only has its thousands-separator commas deleted, so
`"$1,000.00"` becomes `"$1000.00"`. -/
theorem bond_normalization (a : String) (h0 : a ≠ "$0.00") (h1 : a ≠ "$") :
    normBond "$0.00" = "" ∧
    normBond "$" = "" ∧
    normBond "$1,000.00" = "$1000.00" ∧
    normBond a = pyReplace a "," "" := by
  refine ⟨by decide, by decide, by decide, ?_⟩
  unfold normBond
  rw [if_neg h0, if_neg h1]

/-- C7 witness: the theorem at a generic bond amount. -/
theorem bond_normalization_witness :
    normBond "$0.00" = "" ∧
    normBond "$" = "" ∧
    normBond "$1,000.00" = "$1000.00" ∧
    normBond "$2,500.50" = pyReplace "$2,500.50" "," "" :=
  bond_normalization "$2,500.50" (by decide) (by decide)

/-- C10: `scrape_sub` starts by asserting that the number of hyperlinks on
the main page equals the number of dataset rows; when they differ the whole
run aborts with that fatal error before any subpage outcome is examined:
no warning-and-skip handling applies. -/
theorem href_count_mismatch_fatal (ds : List Row) (os : List SubOutcome)
    (h : os.length ≠ ds.length) :
    scrapeSub ds os = .error "Number of hrefs != number of table entries" := by
  unfold scrapeSub
  rw [if_pos h]

/-- C10 witness: one hyperlink against an empty dataset. -/
theorem href_count_mismatch_fatal_witness :
    scrapeSub [] [.fetchFail "u" "e"] =
      .error "Number of hrefs != number of table entries" :=
  href_count_mismatch_fatal [] [.fetchFail "u" "e"] (by decide)

/-! ### `get_page` lemmas (C6) -/

lemma getPageGo_all_fail (att : Nat → Except String String) (err : Nat → String) :
    ∀ (n idx : Nat), (∀ k, k ≤ n → att (idx + k) = .error (err (idx + k))) →
      getPageGo att idx (n + 1) = (none, some (err (idx + n))) := by
  intro n
  induction n with
  | zero =>
    intro idx h
    have h0 := h 0 (Nat.le_refl 0)
    simp only [Nat.add_zero] at h0
    unfold getPageGo
    rw [h0]
    simp
  | succ m ih =>
    intro idx h
    have h0 := h 0 (Nat.zero_le _)
    simp only [Nat.add_zero] at h0
    show getPageGo att idx (m + 2) = _
    unfold getPageGo
    rw [h0]
    have hrec := ih (idx + 1) (fun k hk => by
      have := h (k + 1) (Nat.succ_le_succ hk)
      have harith : idx + (k + 1) = idx + 1 + k := by omega
      rw [harith] at this
      exact this)
    rw [hrec]
    have harith2 : idx + 1 + m = idx + (m + 1) := by omega
    rw [harith2]

lemma getPageGo_first_success (att : Nat → Except String String) (txt : String) :
    ∀ (j n idx : Nat), j < n →
      (∀ k, k < j → ∃ e, att (idx + k) = .error e) →
      att (idx + j) = .ok txt →
      getPageGo att idx n = (some txt, none) := by
  intro j
  induction j with
  | zero =>
    intro n idx hn _ hok
    simp only [Nat.add_zero] at hok
    match n, hn with
    | 1, _ =>
      unfold getPageGo
      rw [hok]
    | m + 2, _ =>
      unfold getPageGo
      rw [hok]
  | succ i ih =>
    intro n idx hn hfail hok
    obtain ⟨e0, he0⟩ := hfail 0 (Nat.succ_pos i)
    simp only [Nat.add_zero] at he0
    match n, hn with
    | m + 2, hm =>
      unfold getPageGo
      rw [he0]
      show getPageGo att (idx + 1) (m + 1) = (some txt, none)
      apply ih (m + 1) (idx + 1) (by omega)
      · intro k hk
        obtain ⟨e, he⟩ := hfail (k + 1) (Nat.succ_lt_succ hk)
        refine ⟨e, ?_⟩
        have harith : idx + (k + 1) = idx + 1 + k := by omega
        rw [harith] at he
        exact he
      · have harith : idx + (i + 1) = idx + 1 + i := by omega
        rw [harith] at hok
        exact hok

/-- C6: `get_page` returns the page text with a null error as soon as one
attempt succeeds with HTTP success status 200; every attempt reuses the
same url and headers (by construction of `getPage`, which applies `doGet`
to them on every attempt); a non-success status is converted into an
error; and when all `retries + 1` attempts fail, it returns a null page
together with the error message of the last attempt. -/
theorem get_page_retry_semantics
    (doGet : String → String → Nat → Except String Response)
    (url headers : String) (retries : Nat) (err : Nat → String)
    (j : Nat) (txt : String) :
    ((∀ k, k ≤ retries → tryGet (doGet url headers k) = .error (err k)) →
       getPage doGet url headers retries = (none, some (err retries))) ∧
    (j ≤ retries →
     (∀ k, k < j → ∃ e, tryGet (doGet url headers k) = .error e) →
     tryGet (doGet url headers j) = .ok txt →
       getPage doGet url headers retries = (some txt, none)) ∧
    (∀ resp : Response, resp.status ≠ codesOk →
       tryGet (.ok resp) = .error ("HTTP response code was " ++ toString resp.status ++
                                   ", should have been " ++ toString codesOk)) := by
  refine ⟨?_, ?_, ?_⟩
  · intro h
    unfold getPage
    have := getPageGo_all_fail (fun k => tryGet (doGet url headers k)) err retries 0
      (fun k hk => by simpa using h k hk)
    simpa using this
  · intro hj hfail hok
    unfold getPage
    have := getPageGo_first_success (fun k => tryGet (doGet url headers k)) txt j
      (retries + 1) 0 (by omega)
      (fun k hk => by simpa using hfail k hk)
      (by simpa using hok)
    exact this
  · intro resp h
    simp only [tryGet]
    rw [if_pos h]

/-- C6 witness: both retry behaviours and the status conversion, via the
theorem at concrete oracles. -/
theorem get_page_retry_semantics_witness :
    getPage doGetAlwaysFail "u" "h" 1 = (none, some ("connection refused at attempt " ++ toString 1)) ∧
    getPage doGetSecondOk "u" "h" 2 = (some "hello", none) ∧
    tryGet (.ok ⟨404, "nf"⟩) = .error ("HTTP response code was " ++ toString 404 ++
                                       ", should have been " ++ toString codesOk) :=
  ⟨(get_page_retry_semantics doGetAlwaysFail "u" "h" 1
      (fun k => "connection refused at attempt " ++ toString k) 0 "").1
      (fun _ _ => rfl),
   (get_page_retry_semantics doGetSecondOk "u" "h" 2
      (fun _ => "") 1 "hello").2.1
      (by omega)
      (fun k hk => by
        have : k = 0 := by omega
        subst this
        exact ⟨"boom", rfl⟩)
      rfl,
   (get_page_retry_semantics doGetAlwaysFail "u" "h" 0 (fun _ => "") 0 "").2.2
      ⟨404, "nf"⟩ (by decide)⟩

/-- C8: on success, `scrape_main` yields exactly one output row per input
row beyond the dropped artifact row, each `inmate_id` copied from a
non-null `MID#` cell, with all ids pairwise distinct; an id column holding
a null or a duplicate is rejected with a fatal error. -/
theorem main_rowcount_and_unique_ids (u ts : String) (y : Int) (t : List MainRow) :
    (∀ ds, scrapeMain u ts y t = .ok ds →
       ds.length = t.length - 1 ∧
       ds.map (fun r => r.inmate_id) = (t.drop 1).map (fun r => r.mid.getD "") ∧
       midNotNull (t.drop 1) = true ∧
       (ds.map (fun r => r.inmate_id)).Nodup) ∧
    (midNotNull (t.drop 1) = false ∨
       ¬ ((t.drop 1).map (fun r => r.mid.getD "")).Nodup →
       ∃ e, scrapeMain u ts y t = .error e) := by
  have hlen1 : t.length - 1 = (t.drop 1).length := by rw [List.length_drop]
  rw [hlen1]
  unfold scrapeMain
  generalize t.drop 1 = rows
  constructor
  · intro ds h
    unfold scrapeMainChecked at h
    by_cases c1 : midNotNull rows
    case neg => simp [c1] at h
    by_cases c2 : midUnique rows
    case neg => simp [c1, c2] at h
    by_cases c3 : nameNotNull rows
    case neg => simp [c1, c2, c3] at h
    by_cases c4 : nameSplit1OK rows
    case neg => simp [c1, c2, c3, c4] at h
    by_cases c5 : nameSplit2OK rows
    case neg => simp [c1, c2, c3, c4, c5] at h
    by_cases c6 : sexNotNull rows
    case neg => simp [c1, c2, c3, c4, c5, c6] at h
    by_cases c7 : sexOK rows
    case neg => simp [c1, c2, c3, c4, c5, c6, c7] at h
    by_cases c8 : raceNotNull rows
    case neg => simp [c1, c2, c3, c4, c5, c6, c7, c8] at h
    by_cases c9 : raceOK rows
    case neg => simp [c1, c2, c3, c4, c5, c6, c7, c8, c9] at h
    by_cases c10 : bookingNotNull rows
    case neg => simp [c1, c2, c3, c4, c5, c6, c7, c8, c9, c10] at h
    by_cases c11 : bookingOK rows
    case neg => simp [c1, c2, c3, c4, c5, c6, c7, c8, c9, c10, c11] at h
    by_cases c12 : yobNotNull rows
    case neg => simp [c1, c2, c3, c4, c5, c6, c7, c8, c9, c10, c11, c12] at h
    by_cases c13 : yobLen4 rows
    case neg => simp [c1, c2, c3, c4, c5, c6, c7, c8, c9, c10, c11, c12, c13] at h
    by_cases c14 : yobInt rows
    case neg => simp [c1, c2, c3, c4, c5, c6, c7, c8, c9, c10, c11, c12, c13, c14] at h
    simp only [c1, c2, c3, c4, c5, c6, c7, c8, c9, c10, c11, c12, c13, c14,
      Bool.not_true, Bool.false_eq_true, if_false, Except.ok.injEq] at h
    subst h
    have hids : (rows.map (buildRow u ts y)).map (fun r => r.inmate_id) =
        rows.map (fun r => r.mid.getD "") := by
      rw [List.map_map]
      rfl
    refine ⟨?_, hids, c1, ?_⟩
    · rw [List.length_map]
    · rw [hids]
      apply nodup_of_dedup_length
      unfold midUnique at c2
      have := beq_iff_eq.mp c2
      rw [List.length_map]
      exact this
  · intro hbad
    by_cases c1 : midNotNull rows
    · have c2 : midUnique rows = false := by
        rcases hbad with hb | hb
        · rw [c1] at hb
          exact absurd hb (by simp)
        · unfold midUnique
          rw [Bool.eq_false_iff]
          intro hu
          apply hb
          apply nodup_of_dedup_length
          have := beq_iff_eq.mp hu
          rw [List.length_map]
          exact this
      refine ⟨"Non-unique inmate IDs", ?_⟩
      unfold scrapeMainChecked
      simp [c1, c2]
    · refine ⟨"null MID#", ?_⟩
      unfold scrapeMainChecked
      simp [Bool.eq_false_iff.2 c1]

/-- C8 witness: the theorem at a valid two-inmate roster and at a roster
with duplicate ids. -/
theorem main_rowcount_and_unique_ids_witness :
    dsGoodW.length = tGoodW.length - 1 ∧
    (dsGoodW.map (fun r => r.inmate_id)).Nodup ∧
    (∃ e, scrapeMain "u" "ts" 2018 tBadW = .error e) := by
  have h : scrapeMain "u" "ts" 2018 tGoodW = .ok dsGoodW := rfl
  have hmain := (main_rowcount_and_unique_ids "u" "ts" 2018 tGoodW).1 dsGoodW h
  refine ⟨hmain.1, hmain.2.2.2, ?_⟩
  exact (main_rowcount_and_unique_ids "u" "ts" 2018 tBadW).2 (Or.inr (by decide))

/-- C9: a non-empty roster whose every name is a valid `"last, first"` with
no middle tokens makes `scrape_main` fail: the second vectorized split
yields a single column, so the two-column shape assertion raises even
though each individual name satisfies the documented format. -/
theorem no_middle_name_trap (u ts : String) (y : Int) (t : List MainRow)
    (hne : t.drop 1 ≠ [])
    (hmid1 : midNotNull (t.drop 1) = true)
    (hmid2 : midUnique (t.drop 1) = true)
    (hname : ∀ r ∈ t.drop 1, ∃ l f : String,
       ',' ∉ l.data ∧ ' ' ∉ f.data ∧ r.name = some (l ++ ", " ++ f)) :
    scrapeMain u ts y t = .error "Invalid name format" := by
  unfold scrapeMain
  revert hne hmid1 hmid2 hname
  generalize t.drop 1 = rows
  intro hne hmid1 hmid2 hname
  have hnn : nameNotNull rows = true := by
    unfold nameNotNull
    rw [List.all_eq_true]
    intro r hr
    obtain ⟨l, f, _, _, heq⟩ := hname r hr
    rw [heq]
    rfl
  have hdata : ∀ l f : String,
      (l ++ ", " ++ f).data = l.data ++ (',' :: ' ' :: []) ++ f.data := by
    intro l f
    simp [String.data_append]
  have h1 : nameSplit1OK rows = true := by
    unfold nameSplit1OK
    rw [List.any_eq_true]
    obtain ⟨r, hr⟩ := List.exists_mem_of_ne_nil _ hne
    refine ⟨r, hr, ?_⟩
    obtain ⟨l, f, hl, _, heq⟩ := hname r hr
    rw [heq]
    show (splitFirst [',', ' '] (l ++ ", " ++ f).data).isSome = true
    rw [hdata l f, splitFirst_at_sep ',' [' '] l.data f.data hl]
    rfl
  have h2 : nameSplit2OK rows = false := by
    unfold nameSplit2OK
    rw [List.any_eq_false]
    intro r hr
    obtain ⟨l, f, hl, hf, heq⟩ := hname r hr
    rw [heq]
    show ¬ ((match splitFirst [',', ' '] (l ++ ", " ++ f).data with
            | some (_, rest) => (splitFirst [' '] rest).isSome
            | none => false) = true)
    rw [hdata l f, splitFirst_at_sep ',' [' '] l.data f.data hl]
    show ¬ ((splitFirst [' '] f.data).isSome = true)
    rw [splitFirst_not_mem ' ' [] f.data hf]
    simp
  unfold scrapeMainChecked
  simp [hmid1, hmid2, hnn, h1, h2]

/-- C9 witness: the theorem at a concrete roster whose two names both lack
middle names. -/
theorem no_middle_name_trap_witness :
    scrapeMain "u" "ts" 2018 tNoMiddleW = .error "Invalid name format" := by
  apply no_middle_name_trap
  · decide
  · decide
  · decide
  · intro r hr
    have hlist : tNoMiddleW.drop 1 =
        [mkMainRow (some "1001") (some "SMITH, JOHN") (some "MALE") (some "WHITE")
           (some "01/02/2017 03:04:05 PM") (some "1990"),
         mkMainRow (some "1002") (some "DOE, JANE") (some "FEMALE") (some "BLACK")
           (some "12/31/2017 11:59:59 PM") (some "1985")] := rfl
    rw [hlist] at hr
    simp only [List.mem_cons, List.not_mem_nil, or_false] at hr
    rcases hr with h | h
    · subst h
      exact ⟨"SMITH", "JOHN", by decide, by decide, by decide⟩
    · subst h
      exact ⟨"DOE", "JANE", by decide, by decide, by decide⟩

/-! ### The partial-failure policy (C1) -/

lemma list_get_map {α β : Type} (f : α → β) (l : List α) (i : Nat)
    (h1 : i < (l.map f).length) (h2 : i < l.length) :
    (l.map f).get ⟨i, h1⟩ = f (l.get ⟨i, h2⟩) := by
  simp [List.get_eq_getElem, List.getElem_map]

lemma any_of_map_any {α β : Type} [BEq β] (f : α → β) (l : List α) (x : β)
    (h : ((l.map f).any fun s => s == x) = true) :
    (l.any fun r => f r == x) = true := by
  rw [List.any_eq_true] at h
  obtain ⟨s, hs, hx⟩ := h
  rw [List.mem_map] at hs
  obtain ⟨r, hr, rfl⟩ := hs
  rw [List.any_eq_true]
  exact ⟨r, hr, hx⟩

lemma processOutcome_good (ds : List Row) (o : SubOutcome)
    (h : goodOutcome (ds.map (fun r => r.inmate_id)) o = true) :
    ∃ ds1 ws, processOutcome ds o = .ok (ds1, ws) ∧
      ds1.length = ds.length ∧
      ds1.map (fun r => r.inmate_id) = ds.map (fun r => r.inmate_id) ∧
      ∀ (i : Nat) (hi : i < ds.length) (hi1 : i < ds1.length),
        touchesId o ≠ some ((ds.get ⟨i, hi⟩).inmate_id) →
        ds1.get ⟨i, hi1⟩ = ds.get ⟨i, hi⟩ := by
  rcases o with ⟨u, e⟩ | ⟨u, nts, ats⟩
  · exact ⟨ds, _, rfl, rfl, rfl, fun i hi hi1 _ => rfl⟩
  · rcases nts with _ | ⟨t1, nts'⟩
    · exact ⟨ds, _, rfl, rfl, rfl, fun i hi hi1 _ => rfl⟩
    · rcases nts' with _ | ⟨t1b, nts''⟩
      · rcases ats with _ | ⟨t2, ats'⟩
        · exact absurd h (by simp [goodOutcome])
        · rcases ats' with _ | ⟨t2b, ats''⟩
          · have hv : validSub (ds.map (fun r => r.inmate_id)) t1 t2 = true := h
            unfold validSub at hv
            simp only [Bool.and_eq_true] at hv
            obtain ⟨⟨⟨⟨⟨⟨hb1, hb2⟩, hb3⟩, hb4⟩, hb5⟩, hb6⟩, hb7⟩ := hv
            rw [Bool.not_eq_true'] at hb4
            have hds : ds.any (fun r => r.inmate_id == extractId (fixAddr t1)) = true :=
              any_of_map_any (fun r => r.inmate_id) ds (extractId (fixAddr t1)) hb5
            refine ⟨subUpdate u t1 t2 ds, subWarnings t2, ?_, ?_, ?_, ?_⟩
            · unfold processOutcome
              dsimp only
              rw [hb1, hb2, hb3, hb4, hds, hb6, hb7]
              rfl
            · unfold subUpdate
              rw [List.length_map]
            · unfold subUpdate
              rw [List.map_map]
              apply List.map_congr_left
              intro r _
              simp only [Function.comp_apply]
              by_cases hc : (r.inmate_id == extractId (fixAddr t1)) = true
              · simp [hc, applySub]
              · simp [hc]
            · intro i hi hi1 hne
              have hne2 : ¬ ((ds.get ⟨i, hi⟩).inmate_id = extractId (fixAddr t1)) := by
                intro hcontra
                apply hne
                show some (extractId (fixAddr t1)) = _
                rw [hcontra]
              unfold subUpdate
              unfold subUpdate at hi1
              rw [list_get_map _ ds i hi1 hi]
              rw [if_neg]
              intro hcontra
              exact hne2 (by
                have := beq_iff_eq.mp hcontra
                exact this)
          · exact absurd h (by simp [goodOutcome])
      · exact absurd h (by simp [goodOutcome])

lemma scrapeSubLoop_good :
    ∀ (os : List SubOutcome) (ds : List Row),
      os.all (goodOutcome (ds.map (fun r => r.inmate_id))) = true →
      ∃ ds2 ws, scrapeSubLoop ds os = .ok (ds2, ws) ∧
        ds2.length = ds.length ∧
        ds2.map (fun r => r.inmate_id) = ds.map (fun r => r.inmate_id) ∧
        ∀ (i : Nat) (hi : i < ds.length) (hi2 : i < ds2.length),
          (∀ o ∈ os, touchesId o ≠ some ((ds.get ⟨i, hi⟩).inmate_id)) →
          ds2.get ⟨i, hi2⟩ = ds.get ⟨i, hi⟩ := by
  intro os
  induction os with
  | nil =>
    intro ds _
    exact ⟨ds, [], rfl, rfl, rfl, fun i hi hi2 _ => rfl⟩
  | cons o os ih =>
    intro ds hall
    rw [List.all_cons, Bool.and_eq_true] at hall
    obtain ⟨h1, h2⟩ := hall
    obtain ⟨ds1, ws1, heq1, hlen1, hids1, hget1⟩ := processOutcome_good ds o h1
    have h2' : os.all (goodOutcome (ds1.map (fun r => r.inmate_id))) = true := by
      rw [hids1]
      exact h2
    obtain ⟨ds2, ws2, heq2, hlen2, hids2, hget2⟩ := ih ds1 h2'
    refine ⟨ds2, ws1 ++ ws2, ?_, hlen2.trans hlen1, hids2.trans hids1, ?_⟩
    · unfold scrapeSubLoop
      rw [heq1]
      dsimp only
      rw [heq2]
    · intro i hi hi2 huntouched
      have hi1 : i < ds1.length := by omega
      have e1 : ds1.get ⟨i, hi1⟩ = ds.get ⟨i, hi⟩ :=
        hget1 i hi hi1 (huntouched o (List.mem_cons_self o os))
      have e2 : ds2.get ⟨i, hi2⟩ = ds1.get ⟨i, hi1⟩ := by
        apply hget2 i hi1 hi2
        intro o' ho'
        rw [e1]
        exact huntouched o' (List.mem_cons_of_mem o ho')
      rw [e2, e1]

/-- C1 counterexample. The claim states that a subpage failing format
validation is warned about and skipped with the run still completing and
writing a CSV; but a fetched subpage whose `Name:` table has the wrong
shape fails the (uncaught) dimension assertion and aborts the entire run
— no dataset, no CSV. -/
theorem detail_failure_policy_cex :
    scrapeSub [blankRow "1"] [.page "u2" [t1badW] []] = .error "Wrong table dimensions" := rfl

/-- C1 (amended): per-subpage failures that are *caught* — a fetch error
after retries, or no table matching `Name:` (the `ValueError` of
`pd.read_html`) — are warned about and skipped: when every outcome is a
caught failure or a valid subpage, the run completes, and every row no
successful subpage merges into keeps its pre-set sentinel
`notes = "Failed to load inmate detail page. Leaving some fields blank"`
and is otherwise exactly its initial value (detail-only fields untouched);
any other format-validation failure aborts the run. -/
theorem detail_failure_policy (ds : List Row) (os : List SubOutcome)
    (hlen : os.length = ds.length)
    (hgood : os.all (goodOutcome (ds.map (fun r => r.inmate_id))) = true) :
    ∃ ds2 ws, scrapeSub ds os = .ok (ds2, ws) ∧ ds2.length = ds.length ∧
      ∀ (i : Nat) (hi : i < ds.length) (hi2 : i < ds2.length),
        (∀ o ∈ os, touchesId o ≠ some ((ds.get ⟨i, hi⟩).inmate_id)) →
        ds2.get ⟨i, hi2⟩ = setSentinel (ds.get ⟨i, hi⟩) := by
  have hids0 : (ds.map setSentinel).map (fun r => r.inmate_id) =
      ds.map (fun r => r.inmate_id) := by
    rw [List.map_map]
    rfl
  have hgood' : os.all (goodOutcome ((ds.map setSentinel).map (fun r => r.inmate_id))) = true := by
    rw [hids0]
    exact hgood
  obtain ⟨ds2, ws, heq, hlen2, _, hget⟩ := scrapeSubLoop_good os (ds.map setSentinel) hgood'
  refine ⟨ds2, ws, ?_, ?_, ?_⟩
  · unfold scrapeSub
    rw [if_neg (fun hne => hne hlen), heq]
  · rw [hlen2, List.length_map]
  · intro i hi hi2 huntouched
    have hi' : i < (ds.map setSentinel).length := by
      rw [List.length_map]
      exact hi
    have hgetmap : (ds.map setSentinel).get ⟨i, hi'⟩ = setSentinel (ds.get ⟨i, hi⟩) :=
      list_get_map setSentinel ds i hi' hi
    have hid : (setSentinel (ds.get ⟨i, hi⟩)).inmate_id = (ds.get ⟨i, hi⟩).inmate_id := rfl
    have := hget i hi' hi2 (by
      intro o ho
      rw [hgetmap, hid]
      exact huntouched o ho)
    rw [this, hgetmap]

/-- C1 witness: a run with one fetch failure, one page with no `Name:`
table, and one valid subpage merging into inmate `"2"`, via the theorem. -/
theorem detail_failure_policy_witness :
    ∃ ds2 ws,
      scrapeSub [blankRow "1", blankRow "2", blankRow "3"]
        [.fetchFail "u" "err", .page "u1" [] [], .page "u2" [t1okW] [t2okW]] =
        .ok (ds2, ws) ∧
      ds2.length = [blankRow "1", blankRow "2", blankRow "3"].length ∧
      ∀ (i : Nat) (hi : i < [blankRow "1", blankRow "2", blankRow "3"].length)
        (hi2 : i < ds2.length),
        (∀ o ∈ [SubOutcome.fetchFail "u" "err", .page "u1" [] [], .page "u2" [t1okW] [t2okW]],
          touchesId o ≠ some (([blankRow "1", blankRow "2", blankRow "3"].get ⟨i, hi⟩).inmate_id)) →
        ds2.get ⟨i, hi2⟩ = setSentinel ([blankRow "1", blankRow "2", blankRow "3"].get ⟨i, hi⟩) :=
  detail_failure_policy [blankRow "1", blankRow "2", blankRow "3"]
    [.fetchFail "u" "err", .page "u1" [] [], .page "u2" [t1okW] [t2okW]]
    (by decide) (by decide)

end AthensClarke
